import Mathlib

/-!
Verification development for the seabox container manager (src/main.rs).

The Rust source is shallowly embedded: pure computations (string handling,
configuration merging, argument-vector synthesis) become Lean functions;
every interaction with the outside world (spawning the container runtime,
parsing its JSON output with serde, the filesystem) is mediated by a `World`
oracle, and each handler returns the list of observable events (process
spawns, stdout/stderr lines) together with an `Except` value modelling
`exit(code)`, panics and the final process-replacing `exec`.
-/

namespace Seabox

/-! ### Character and string utilities

The Rust code uses `str::split`, `str::lines`, `i64::from_str` and the
`shlex` crate.  These are modelled over `List Char` with structural
recursion so that every definition evaluates by `rfl`/`decide`.
-/

/-- The double-quote character. -/
def cQuote : Char := Char.ofNat 34

/-- The single-quote character. -/
def cApos : Char := Char.ofNat 39

/-- The backslash character. -/
def cBack : Char := Char.ofNat 92

/-- The backtick character. -/
def cTick : Char := Char.ofNat 96

/-- Split a character list at every occurrence of `c` (Rust `str::split`):
the result always has one more piece than there are separators, so the
empty input yields `[[]]`. -/
def splitOnChar (c : Char) : List Char → List (List Char)
  | [] => [[]]
  | x :: xs =>
    let r := splitOnChar c xs
    if x = c then [] :: r
    else
      match r with
      | [] => [[x]]
      | h :: t => (x :: h) :: t

/-- Rust `str::split(":")` as a `String` function. -/
def splitColon (s : String) : List String :=
  (splitOnChar ':' s.data).map (fun l => String.mk l)

/-- `List.intercalate` for strings, by structural recursion. -/
def intercalateStr (sep : String) : List String → String
  | [] => ""
  | [x] => x
  | x :: y :: xs => x ++ sep ++ intercalateStr sep (y :: xs)

/-- Drop a trailing carriage return, as Rust `str::lines` does per line. -/
def stripCR (l : List Char) : List Char :=
  if l.getLast? = some '\r' then l.dropLast else l

/-- Rust `str::lines`: split on newline treated as a terminator (no empty
final line after a trailing newline), stripping a trailing `\r`. -/
def rustLines (s : String) : List String :=
  let parts := splitOnChar '\n' s.data
  let parts := if parts.getLast? = some [] then parts.dropLast else parts
  parts.map (fun l => String.mk (stripCR l))

/-- Decimal value of a digit list. -/
def digitsToNat (l : List Char) : Nat :=
  l.foldl (fun a c => a * 10 + (c.toNat - 48)) 0

/-- Rust `i64::from_str`: optional sign, one or more ASCII digits, range
checked against the 64-bit two's-complement bounds. -/
def parseI64 (s : String) : Option Int :=
  let signed : Int × List Char :=
    match s.data with
    | '-' :: rest => (-1, rest)
    | '+' :: rest => (1, rest)
    | l => (1, l)
  match signed with
  | (sign, digits) =>
    if digits = [] then none
    else if digits.all Char.isDigit then
      let v : Int := sign * (digitsToNat digits : Nat)
      if -(2 ^ 63) ≤ v ∧ v < 2 ^ 63 then some v else none
    else none

/-- Path components in the sense of Rust `Path::components` on an absolute
path: the non-empty segments other than `"."` (the root is implicit). -/
def pathComponents (s : String) : List String :=
  ((splitOnChar '/' s.data).map (fun l => String.mk l)).filter
    (fun c => c ≠ "" && c ≠ ".")

/-- Rust `std::path::absolute` at the component level: a relative path is
interpreted against the current working directory. -/
def pathAbsolute (cwd p : String) : List String :=
  if p.data.head? = some '/' then pathComponents p
  else pathComponents cwd ++ pathComponents p

/-- The relative-path computation of `enter_container` (src/main.rs:919-930):
`cwd.strip_prefix(absolute(host_dir))`, with the empty relative path when the
current directory is not inside the recorded mount source. -/
def enterRelativePath (hostDir cwd : String) : String :=
  let s := pathAbsolute cwd hostDir
  let d := pathAbsolute cwd cwd
  if s.isPrefixOf d then intercalateStr "/" (d.drop s.length) else ""

/-! ### The `shlex` crate (external collaborator)

`shlex::split` tokenizes with POSIX-like word splitting and returns `none`
on a dangling backslash or an unclosed quote; `shlex::try_join` quotes each
word and fails only on an interior NUL byte. -/

/-- Scanner state for `shlexSplit`: outside quotes, inside single quotes,
or inside double quotes. -/
inductive ShMode where
  | plain
  | single
  | double
deriving DecidableEq

/-- Is `c` one of the word-separating whitespace characters of `shlex`? -/
def shWhitespace (c : Char) : Bool :=
  c = ' ' || c = '\t' || c = '\n'

/-- Core scanner of `shlex::split`.  `inWord` records whether a word is
open, `cur` the reversed current word, `acc` the reversed finished words. -/
def shlexGo : ShMode → Bool → List Char → List String → List Char → Option (List String)
  | ShMode.plain, inWord, cur, acc, [] =>
    some ((if inWord then String.mk cur.reverse :: acc else acc).reverse)
  | ShMode.plain, inWord, cur, acc, c :: rest =>
    if shWhitespace c then
      shlexGo ShMode.plain false [] (if inWord then String.mk cur.reverse :: acc else acc) rest
    else if c = cApos then shlexGo ShMode.single true cur acc rest
    else if c = cQuote then shlexGo ShMode.double true cur acc rest
    else if c = cBack then
      match rest with
      | [] => none
      | c2 :: rest2 =>
        shlexGo ShMode.plain true (if c2 = '\n' then cur else c2 :: cur) acc rest2
    else shlexGo ShMode.plain true (c :: cur) acc rest
  | ShMode.single, _, _, _, [] => none
  | ShMode.single, _, cur, acc, c :: rest =>
    if c = cApos then shlexGo ShMode.plain true cur acc rest
    else shlexGo ShMode.single true (c :: cur) acc rest
  | ShMode.double, _, _, _, [] => none
  | ShMode.double, _, cur, acc, c :: rest =>
    if c = cQuote then shlexGo ShMode.plain true cur acc rest
    else if c = cBack then
      match rest with
      | [] => none
      | c2 :: rest2 =>
        if c2 = '$' || c2 = cTick || c2 = cQuote || c2 = cBack then
          shlexGo ShMode.double true (c2 :: cur) acc rest2
        else if c2 = '\n' then shlexGo ShMode.double true cur acc rest2
        else shlexGo ShMode.double true (c2 :: cBack :: cur) acc rest2
    else shlexGo ShMode.double true (c :: cur) acc rest

/-- `shlex::split`: `none` exactly when tokenization fails. -/
def shlexSplit (s : String) : Option (List String) :=
  shlexGo ShMode.plain false [] [] s.data

/-- Characters that force `shlex` to quote a word. -/
def shlexSpecials : List Char :=
  [' ', '\t', '\r', '\n', cQuote, cApos, cTick, cBack,
   '|', '&', ';', '<', '>', '(', ')', '$', '*', '?', '[', '#', '~', '=', '%']

/-- Escape one character inside a double-quoted `shlex` word. -/
def shlexEscChar (c : Char) : List Char :=
  if c = cQuote || c = cBack || c = cTick || c = '$' then [cBack, c] else [c]

/-- Escape a whole character list for double quoting. -/
def shlexEscAll : List Char → List Char
  | [] => []
  | c :: rest => shlexEscChar c ++ shlexEscAll rest

/-- `shlex` quoting of a single word. -/
def shlexQuote (s : String) : String :=
  if s = "" then String.mk [cQuote, cQuote]
  else if s.data.any (fun c => shlexSpecials.contains c) then
    String.mk ([cQuote] ++ shlexEscAll s.data ++ [cQuote])
  else s

/-- `shlex::try_join`: fails only when some argument contains a NUL byte. -/
def shlexTryJoin (args : List String) : Option String :=
  if args.any (fun s => s.data.contains (Char.ofNat 0)) then none
  else some (intercalateStr " " (args.map shlexQuote))

/-! ### Constants (src/main.rs:9-17) -/

/-- `SEABOX_NAME`. -/
def SEABOX_NAME : String := "seabox"

/-- `NEW_USER_USERNAME`. -/
def NEW_USER_USERNAME : String := "user"

/-- `DEFAULT_SUDO_PATH`. -/
def DEFAULT_SUDO_PATH : String := "sudo"

/-- `DEFAULT_SHELL` (src/main.rs:19-35): the fallback interactive command. -/
def DEFAULT_SHELL : List String :=
  ["/bin/sh", "-c",
   "USER=$(id -un)\nSHELL_PATH=$(awk -F: -v u=\"$USER\" \x27$1==u \x7bprint $7\x7d\x27 /etc/passwd)\n\nif [ -z \"$SHELL_PATH\" ]; then\n    if command -v /bin/bash >/dev/null 2>&1; then\n        SHELL_PATH=\"/bin/bash\"\n    else\n        SHELL_PATH=\"/bin/sh\"\n    fi\nfi\n\nexport SHELL=\"$SHELL_PATH\"\nexec \"$SHELL_PATH\""]

/-! ### Configuration data model and resolution (src/main.rs:44-97, 318-407)

`figment` merging with `Serialized`/`Env` providers amounts to: start from
the serde defaults, then apply each layer in merge order, a layer
overriding a field exactly when it carries a value for it (fields skipped
by `skip_serializing_if = "Option::is_none"` are absent). -/

/-- The fully resolved `Config` struct. -/
structure Config where
  image : Option String
  sudo_command : String
  install_sudo : Option Bool
  no_password : Bool
  unsafe_setup_passwordless_sudo : Bool
deriving DecidableEq

/-- `BaseConfig`: a sparse configuration layer, every field optional.  Also
used to model the `SEABOX_`-prefixed environment layer, which can set the
same five fields. -/
structure BaseConfig where
  image : Option String := none
  sudo_command : Option String := none
  install_sudo : Option Bool := none
  no_password : Option Bool := none
  unsafe_setup_passwordless_sudo : Option Bool := none
deriving DecidableEq

/-- The `Config`-relevant fields of `CreateAndTempSharedArgs` as serialized
for the merge (all carry `skip_serializing_if`; the remaining CLI fields do
not name any `Config` field). -/
structure CliConfigArgs where
  image : Option String := none
  install_sudo : Option Bool := none
  no_password : Option Bool := none
  unsafe_setup_passwordless_sudo : Option Bool := none
deriving DecidableEq

/-- The serde defaults of `Config`: `sudo_command` defaults to
`DEFAULT_SUDO_PATH`, everything else to `None`/`false`. -/
def defaultConfig : Config :=
  { image := none
    sudo_command := DEFAULT_SUDO_PATH
    install_sudo := none
    no_password := false
    unsafe_setup_passwordless_sudo := false }

/-- Merge one sparse layer over a full configuration (later layer wins on
the fields it carries). -/
def applyBase (c : Config) (b : BaseConfig) : Config :=
  { image := b.image.orElse (fun _ => c.image)
    sudo_command := b.sudo_command.getD c.sudo_command
    install_sudo := b.install_sudo.orElse (fun _ => c.install_sudo)
    no_password := b.no_password.getD c.no_password
    unsafe_setup_passwordless_sudo :=
      b.unsafe_setup_passwordless_sudo.getD c.unsafe_setup_passwordless_sudo }

/-- Merge the CLI layer over a full configuration. -/
def applyCli (c : Config) (a : CliConfigArgs) : Config :=
  { image := a.image.orElse (fun _ => c.image)
    sudo_command := c.sudo_command
    install_sudo := a.install_sudo.orElse (fun _ => c.install_sudo)
    no_password := a.no_password.getD c.no_password
    unsafe_setup_passwordless_sudo :=
      a.unsafe_setup_passwordless_sudo.getD c.unsafe_setup_passwordless_sudo }

/-- The configuration built in `main` (src/main.rs:338-342):
defaults ← global profile ← environment. -/
def mainPassConfig (base env : BaseConfig) : Config :=
  applyBase (applyBase defaultConfig base) env

/-- `create_config` (src/main.rs:325-333):
defaults ← global profile ← per-image profile ← environment. -/
def create_config (base profile env : BaseConfig) : Config :=
  applyBase (applyBase (applyBase defaultConfig base) profile) env

/-- `resolve_config_args_create_tmp` (src/main.rs:380-407).  First pass:
apply the CLI layer to the `main` configuration to obtain the provisional
image; if a per-image profile whose key equals it exists, rebuild the base
merge including that profile; finally re-apply the CLI layer. -/
def resolve_config_args_create_tmp (base : BaseConfig)
    (profiles : List (String × BaseConfig)) (env : BaseConfig)
    (cli : CliConfigArgs) : Config :=
  let cfg0 := mainPassConfig base env
  let config_with_cli_flags := applyCli cfg0 cli
  let cfg1 :=
    match config_with_cli_flags.image with
    | none => cfg0
    | some cli_image =>
      profiles.foldl
        (fun acc p => if p.1 = cli_image then create_config base p.2 env else acc)
        cfg0
  applyCli cfg1 cli

/-- The provisional image name of the first merge pass: CLI over
environment over the global profile. -/
def provisionalImage (base env : BaseConfig) (cli : CliConfigArgs) : Option String :=
  cli.image.orElse (fun _ => env.image.orElse (fun _ => base.image))

/-- The per-image profile matched by the provisional image name, if any. -/
def matchedProfile (base : BaseConfig) (profiles : List (String × BaseConfig))
    (env : BaseConfig) (cli : CliConfigArgs) : Option BaseConfig :=
  (provisionalImage base env cli).bind
    (fun img => (profiles.find? (fun p => p.1 = img)).map (fun p => p.2))

/-! ### Observable effects

Every external interaction of the tool is a process spawn, an output line,
or a terminal transition (`exit`, a panic, or the process-replacing `exec`
of `enter`). -/

/-- An observable event: a spawned external process or an output line. -/
inductive Event where
  | spawn (argv : List String)
  | print (line : String)
  | eprint (line : String)
deriving DecidableEq

/-- How a run of the tool can stop before returning. -/
inductive Abort where
  | exited (code : Int)
  | panicked (msg : String)
  | execed (argv : List String)
deriving DecidableEq

/-- Outcome of spawning an external process: an OS-level spawn error, or an
exit status (`none` when killed by a signal) together with captured
stdout. -/
inductive RunResult where
  | err (msg : String)
  | ok (code : Option Int) (stdout : String)
deriving DecidableEq

/-- A computation that records events and may stop with an `Abort`. -/
abbrev M (α : Type) : Type := List Event × Except Abort α

/-- Return without events. -/
def evOk {α : Type} (a : α) : M α := ([], Except.ok a)

/-- Sequencing of event-recording computations. -/
def mbind {α β : Type} (x : M α) (f : α → M β) : M β :=
  match x with
  | (evs, Except.error e) => (evs, Except.error e)
  | (evs, Except.ok a) => (evs ++ (f a).1, (f a).2)

/-- `println!`. -/
def printM (s : String) : M Unit := ([Event.print s], Except.ok ())

/-- `eprintln!`. -/
def eprintM (s : String) : M Unit := ([Event.eprint s], Except.ok ())

/-- `exit(code)`. -/
def exitM {α : Type} (code : Int) : M α := ([], Except.error (Abort.exited code))

/-- A Rust panic (`unwrap`/`expect`/out-of-bounds indexing). -/
def panicM {α : Type} (msg : String) : M α := ([], Except.error (Abort.panicked msg))

/-- `Vec<MountType>` element of podman's container-inspect JSON. -/
structure MountType where
  source : String
deriving DecidableEq

/-- `State` element of podman's container-inspect JSON. -/
structure StateType where
  running : Bool
deriving DecidableEq

/-- `Config` element of podman's container-inspect JSON. -/
structure ConfigType where
  user : String
deriving DecidableEq

/-- `PodmanContainerInspectFormat` (src/main.rs:271-281). -/
structure PodmanContainerInspectFormat where
  mounts : List MountType
  state : StateType
  config : ConfigType
deriving DecidableEq

/-- `PodmanImageInspectFormat` (src/main.rs:300-304); the labels map is
modelled as an association list. -/
structure PodmanImageInspectFormat where
  labels : Option (List (String × String))
deriving DecidableEq

/-- `HashMap::get` on the association-list model of the labels map. -/
def mapGet (m : List (String × String)) (k : String) : Option String :=
  (m.find? (fun p => p.1 = k)).map (fun p => p.2)

/-- The external world: the process executor (keyed by argument vector),
the serde-JSON parsers for the two inspect formats, and the process
environment.  `initScript` is the `include_str!` entry-script asset, an
opaque external collaborator per the specification. -/
structure World where
  run : List String → RunResult
  parseImageInspect : String → Option (List PodmanImageInspectFormat)
  parseContainerInspect : String → Option (List PodmanContainerInspectFormat)
  canonicalize : String → Option String
  cwd : Option String
  euid : Nat
  egid : Nat
  initScript : String
  configPath : String
  configFileContents : Option String

/-- Spawn an external process and observe its result. -/
def spawnM (w : World) (argv : List String) : M RunResult :=
  ([Event.spawn argv], Except.ok (w.run argv))

/-- `print_command` (src/main.rs:1151-1154): render an argument vector as
one shell-quoted line; `shlex::try_join(...).unwrap()` panics on a NUL
byte. -/
def print_command (command_args : List String) : M Unit :=
  match shlexTryJoin command_args with
  | some s => printM s
  | none => panicM "called Option.unwrap on a None value"

/-! ### Argument-vector generators (pure) -/

/-- `generate_container_inspect_command` (src/main.rs:607-618). -/
def generate_container_inspect_command (cfg : Config) (name : String) : List String :=
  [cfg.sudo_command, "podman", "container", "inspect", name]

/-- `generate_image_inspect_command` (src/main.rs:699-710). -/
def generate_image_inspect_command (cfg : Config) (image : String) : List String :=
  [cfg.sudo_command, "podman", "image", "inspect", image]

/-- `generate_image_pull_command` (src/main.rs:735-740). -/
def generate_image_pull_command (cfg : Config) (image : String) : List String :=
  [cfg.sudo_command, "podman", "pull", image]

/-- `generate_cat_etc_password_command` (src/main.rs:742-756). -/
def generate_cat_etc_password_command (cfg : Config) (image : String) : List String :=
  [cfg.sudo_command, "podman", "run", "--rm", "--entrypoint", "cat", image, "/etc/passwd"]

/-- `generate_container_stop_command` (src/main.rs:1086-1091). -/
def generate_container_stop_command (cfg : Config) (name : String) : List String :=
  [cfg.sudo_command, "podman", "kill", name]

/-- `generate_container_delete_command` (src/main.rs:1093-1105). -/
def generate_container_delete_command (cfg : Config) (name : String) : List String :=
  [cfg.sudo_command, "podman", "container", "rm", "--force", name]

/-- `generate_container_start_command` (src/main.rs:1107-1112). -/
def generate_container_start_command (cfg : Config) (name : String) : List String :=
  [cfg.sudo_command, "podman", "start", name]

/-- `generate_list_containers_command` (src/main.rs:1059-1071). -/
def generate_list_containers_command (cfg : Config) : List String :=
  [cfg.sudo_command, "podman", "ps", "--all", "--filter",
   "label=" ++ SEABOX_NAME ++ "=true"]

/-- `generate_container_enter_command` (src/main.rs:851-877). -/
def generate_container_enter_command (cfg : Config) (user name : String)
    (exec_command : List String) (relative_path : String) : List String :=
  [cfg.sudo_command, "podman", "exec", "-it", "-w", "/mount/" ++ relative_path,
   "--user", user, name] ++ exec_command

/-! ### Image identity resolution (src/main.rs:712-839) -/

/-- `image_inspect` (src/main.rs:712-733): in dry-run mode the command is
printed first, but it is executed in every mode; the stdout is returned
only on exit status 0. -/
def image_inspect (w : World) (cfg : Config) (image : String) (dry_run : Bool) :
    M (Option String) :=
  let inspect_image_command := generate_image_inspect_command cfg image
  mbind (if dry_run then print_command inspect_image_command else evOk ()) fun _ =>
  mbind (spawnM w inspect_image_command) fun r =>
  match r with
  | RunResult.ok (some 0) out => evOk (some out)
  | RunResult.ok _ _ => evOk none
  | RunResult.err _ => evOk none

/-- The `SEABOX_USER_ID` label of the first image-inspect record, if any
(src/main.rs:792-795). -/
def imageLabelUid (inspect : List PodmanImageInspectFormat) : Option String :=
  match inspect with
  | [] => none
  | element :: _ =>
    match element.labels with
    | none => none
    | some map => mapGet map "SEABOX_USER_ID"

/-- Parse one `/etc/passwd` line (src/main.rs:815-824): fields split on
`:`; indexing fields 0, 2, 3 and `parse::<i64>().unwrap()` panic on a
malformed line (modelled as `none`). -/
def parsePasswdLine (line : String) : Option (String × Int × Int) :=
  let values := splitColon line
  match values with
  | [] => none
  | username :: _ =>
    match values.get? 2, values.get? 3 with
    | some uid, some gid =>
      match parseI64 uid, parseI64 gid with
      | some u, some g => some (username, u, g)
      | _, _ => none
    | _, _ => none

/-- Parse every line of a passwd dump; `none` models the panic on the
first malformed line. -/
def parsePasswdAll (s : String) : Option (List (String × Int × Int)) :=
  (rustLines s).mapM parsePasswdLine

/-- The ascending-by-uid comparison of `sort_by_key(|k| k.1)`
(src/main.rs:831). -/
def uidLE (a b : String × Int × Int) : Prop := a.2.1 ≤ b.2.1

instance : DecidableRel uidLE := fun a b => Int.decLe a.2.1 b.2.1

instance : IsTotal (String × Int × Int) uidLE := ⟨fun a b => le_total a.2.1 b.2.1⟩

instance : IsTrans (String × Int × Int) uidLE :=
  ⟨fun _ _ _ h1 h2 => le_trans h1 h2⟩

/-- Select the best-guess user (src/main.rs:827-835): keep entries with
`1000 <= uid < 2000`, stable-sort ascending by uid, take the last. -/
def selectBest (entries : List (String × Int × Int)) : Option (Int × Int) :=
  let filtered := entries.filter
    (fun x => decide (1000 ≤ x.2.1) && decide (x.2.1 < 2000))
  let sorted := filtered.insertionSort uidLE
  sorted.getLast?.map (fun x => (x.2.1, x.2.2))

/-- `determine_container_uid_gid` (src/main.rs:758-839). -/
def determine_container_uid_gid (w : World) (cfg : Config) (image : String)
    (dry_run : Bool) : M (Option (Int × Int)) :=
  mbind (image_inspect w cfg image dry_run) fun first =>
  mbind
    (match first with
     | some x => evOk x
     | none =>
       let image_pull_command := generate_image_pull_command cfg image
       if dry_run then
         mbind (printM "# Need to pull image at this point - cannot proceed with dry run") fun _ =>
         mbind (print_command image_pull_command) fun _ =>
         exitM 1
       else
         mbind (spawnM w image_pull_command) fun pull =>
         mbind
           (match pull with
            | RunResult.err _ => panicM "Failed to run command"
            | RunResult.ok code _ =>
              match code with
              | some x => if x ≠ 0 then exitM 1 else evOk ()
              | none => evOk ()) fun _ =>
         mbind (image_inspect w cfg image dry_run) fun second =>
         match second with
         | some x => evOk x
         | none => panicM "called Option.unwrap on a None value") fun result =>
  match w.parseImageInspect result with
  | none => panicM "JSON parse error"
  | some inspect =>
    match imageLabelUid inspect with
    | some uidStr =>
      (match parseI64 uidStr with
       | none => panicM "invalid digit found in string"
       | some uid => evOk (some (uid, uid)))
    | none =>
      let cat_etc_passwd_command := generate_cat_etc_password_command cfg image
      mbind (if dry_run then print_command cat_etc_passwd_command else evOk ()) fun _ =>
      mbind (spawnM w cat_etc_passwd_command) fun ect_passwd =>
      match ect_passwd with
      | RunResult.err _ => evOk none
      | RunResult.ok _ out =>
        match parsePasswdAll out with
        | none => panicM "malformed passwd line"
        | some user_info => evOk (selectBest user_info)

/-! ### Container creation synthesis (src/main.rs:425-605) -/

/-- `resolve_image` (src/main.rs:409-423): an explicit image wins; the
configured image is used only when non-empty. -/
def resolve_image (cfg : Config) (image : Option String) : Option String :=
  match image with
  | some i => some i
  | none =>
    match cfg.image with
    | some x => if x ≠ "" then some x else none
    | none => none

/-- Image resolution including the fatal diagnostic (src/main.rs:439-446). -/
def resolveImageM (cfg : Config) (image : Option String) : M String :=
  match resolve_image cfg image with
  | some x => evOk x
  | none =>
    mbind (eprintM "No default image found and no image provided with --image") fun _ =>
    exitM 1

/-- The identity decision of `generate_create_container_command`
(src/main.rs:453-476): `(create_user, container_user_id,
container_user_gid)`, with the fixed default 1000 when no container user
was found and 0 in root mode. -/
def identityStep (w : World) (cfg : Config) (image : String) (root dry_run : Bool) :
    M (Bool × Int × Int) :=
  if root then evOk (false, 0, 0)
  else
    mbind (determine_container_uid_gid w cfg image dry_run) fun target =>
    match target with
    | some (x, y) => evOk (false, x, y)
    | none => evOk (true, 1000, 1000)

/-- Mount-directory resolution (src/main.rs:478-493): an explicit `-d`
path is canonicalized (fatal if it does not exist); otherwise the current
working directory is used. -/
def resolveDirM (w : World) (directory : Option String) : M String :=
  match directory with
  | some x =>
    match w.canonicalize x with
    | some p => evOk p
    | none =>
      mbind (eprintM ("Directory \x27" ++ x ++ "\x27 does not exist")) fun _ =>
      exitM 1
  | none =>
    match w.cwd with
    | some d => evOk d
    | none => panicM "Current working directory not found"

/-- The idmap expression (src/main.rs:495-503). -/
def idmap_parameters (root : Bool) (host_user_id host_user_gid : Nat)
    (container_user_id container_user_gid : Int) : String :=
  if root then "0-0-2000;gids=0-0-2000"
  else
    toString host_user_id ++ "-" ++ toString container_user_id ++ "-1#0-0-1;gids=" ++
    toString host_user_gid ++ "-" ++ toString container_user_gid ++ "-1#0-0-1"

/-- One `--mount` argument value. -/
def mountArg (source destination idmap : String) : String :=
  "type=bind,source=" ++ source ++ ",destination=" ++ destination ++
  ",idmap=uids=" ++ idmap

/-- The additional-mounts loop (src/main.rs:510-529): each specifier must
split on `:` into exactly two fields, otherwise the tool prints a
diagnostic and exits with status 1. -/
def buildAdditionalMounts (idmap : String) : List String → M (List String)
  | [] => evOk []
  | mount_specifier :: rest =>
    match splitColon mount_specifier with
    | [host_dir, container_dir] =>
      mbind (buildAdditionalMounts idmap rest) fun tail =>
      evOk (["--mount", mountArg host_dir container_dir idmap] ++ tail)
    | _ =>
      mbind (eprintM ("Invalid format for mount: " ++ mount_specifier)) fun _ =>
      exitM 1

/-- The `-u` argument value (src/main.rs:557-563): ephemeral containers
always run as `0:0`. -/
def user_string (temp : Bool) (container_user_id container_user_gid : Int) : String :=
  if temp then "0:0"
  else toString container_user_id ++ ":" ++ toString container_user_gid

/-- The pass-through tokens (src/main.rs:550-554): the free-form string is
shell-word split; when splitting fails nothing is added. -/
def ptArgs (passthrough : Option String) : List String :=
  match passthrough with
  | some p => (shlexSplit p).getD []
  | none => []

/-- Final assembly of the `podman run` argument vector
(src/main.rs:531-596). -/
def assembleArgs (cfg : Config) (name : String) (temp : Bool)
    (passthrough : Option String) (no_dir : Bool) (hostname mount : String)
    (additional_mount_strings : List String)
    (container_user_id container_user_gid : Int) (image : String) : List String :=
  [cfg.sudo_command, "podman", "run", "--label", SEABOX_NAME ++ "=true",
   "--privileged", "-it"] ++
  [if temp then "--rm" else "-d"] ++
  ptArgs passthrough ++
  ["--network", "host", "--hostname", hostname, "--add-host",
   hostname ++ ":127.0.0.1", "-u", user_string temp container_user_id container_user_gid,
   "--passwd=false", "-w", "/mount/"] ++
  (if no_dir then [] else ["--mount", mount]) ++
  additional_mount_strings ++
  ["--name", name, image]

/-- The effectful prelude of `generate_create_container_command`: image
resolution, identity resolution, mount-directory resolution and the
additional-mounts loop, in source order. -/
def genPrelude (w : World) (cfg : Config) (image : Option String) (root dry_run : Bool)
    (directory : Option String) (additional_mounts : List String) :
    M (String × Bool × Int × Int × String × List String) :=
  mbind (resolveImageM cfg image) fun img =>
  mbind (identityStep w cfg img root dry_run) fun ids =>
  mbind (resolveDirM w directory) fun current_dir =>
  mbind (buildAdditionalMounts
          (idmap_parameters root w.euid w.egid ids.2.1 ids.2.2)
          additional_mounts) fun addl =>
  evOk (img, ids.1, ids.2.1, ids.2.2, current_dir, addl)

/-- `generate_create_container_command` (src/main.rs:425-605), returning
`(arguments, create_user, container_user_id, container_user_gid, image)`. -/
def generate_create_container_command (w : World) (cfg : Config)
    (image : Option String) (name : String) (root temp : Bool)
    (passthrough directory : Option String) (no_dir : Bool)
    (additional_mounts : List String) (dry_run : Bool) :
    M (List String × Bool × Int × Int × String) :=
  mbind (genPrelude w cfg image root dry_run directory additional_mounts) fun r =>
  match r with
  | (img, create_user, container_user_id, container_user_gid, current_dir, addl) =>
    let hostname := SEABOX_NAME ++ "-" ++ name
    let idmap := idmap_parameters root w.euid w.egid container_user_id container_user_gid
    let mount := mountArg current_dir "/mount/" idmap
    evOk (assembleArgs cfg name temp passthrough no_dir hostname mount addl
            container_user_id container_user_gid img,
          create_user, container_user_id, container_user_gid, img)

/-- `create_initial_enter_script` (src/main.rs:1156-1188): placeholder
substitution on the entry-script asset. -/
def create_initial_enter_script (initScript : String) (create_user : Bool)
    (username : String) (container_user_id : Int)
    (passwordless_sudo no_password : Bool) (install_sudo : Option Bool)
    (shell : Option String) (verbose : Bool) : String :=
  let param_sudo_install_prompt :=
    match install_sudo with
    | some true => "install"
    | some false => "no_install"
    | none => "prompt"
  let shell := shell.getD ""
  ((((((((initScript.replace
      "INSERT_CREATE_USER" (if create_user then "1" else "")).replace
      "INSERT_NEW_USERNAME" username).replace
      "INSERT_CONTAINER_ID" (toString container_user_id)).replace
      "INSERT_SUDO_INSTALL" param_sudo_install_prompt).replace
      "INSERT_PASSWORDLESS_SUDO" (if passwordless_sudo then "1" else "")).replace
      "INSERT_CREATE_PASSWORD" (if no_password then "1" else "")).replace
      "INSERT_VERBOSE" (if verbose then "1" else "")).replace
      "INSERT_SHELL" shell)

/-! ### Handlers (src/main.rs:354-1148) -/

/-- The per-command flags shared by every subcommand. -/
structure AllArgs where
  dry_run : Bool
  verbose : Bool
deriving DecidableEq

/-- `CreateAndTempSharedArgs` (src/main.rs:194-269). -/
structure SharedArgs where
  image : Option String := none
  shell : Option String := none
  directory : Option String := none
  no_dir : Bool := false
  volume : List String := []
  pass_through : Option String := none
  root : Bool := false
  install_sudo : Option Bool := none
  no_password : Option Bool := none
  unsafe_setup_passwordless_sudo : Option Bool := none
deriving DecidableEq

/-- The serialized view of `CreateAndTempSharedArgs` that can touch
`Config` fields during the figment merge. -/
def cliArgsOf (s : SharedArgs) : CliConfigArgs :=
  { image := s.image
    install_sudo := s.install_sudo
    no_password := s.no_password
    unsafe_setup_passwordless_sudo := s.unsafe_setup_passwordless_sudo }

/-- `enter_container` (src/main.rs:879-967). -/
def enter_container (w : World) (cfg : Config) (name : String)
    (username shell : Option String) (dry_run : Bool)
    (append_args : List String) : M Unit :=
  let shell_command : List String :=
    if append_args ≠ [] then append_args
    else
      match shell with
      | some s => [s]
      | none => DEFAULT_SHELL
  let container_inspect_command := generate_container_inspect_command cfg name
  let container_start_command := generate_container_start_command cfg name
  mbind (spawnM w container_inspect_command) fun result =>
  mbind
    (match result with
     | RunResult.err _ => panicM "Failed to run command"
     | RunResult.ok code out =>
       match code with
       | some c =>
         if c ≠ 0 then
           mbind (eprintM ("A container with name \x27" ++ name ++ "\x27 does not exist")) fun _ =>
           exitM 1
         else evOk out
       | none => evOk out) fun stdout_text =>
  match w.parseContainerInspect stdout_text with
  | none => panicM "JSON parse error"
  | some info =>
    match info with
    | [] => panicM "index out of bounds"
    | i0 :: _ =>
      match i0.mounts with
      | [] => panicM "index out of bounds"
      | m0 :: _ =>
        mbind (if m0.source = "" then panicM "Couldn\x27t make path absolute" else evOk ()) fun _ =>
        match w.cwd with
        | none => panicM "Current working directory not found"
        | some current_dir =>
          let rel := enterRelativePath m0.source current_dir
          let user :=
            match username with
            | some x => x
            | none => i0.config.user
          let container_enter_command :=
            generate_container_enter_command cfg user name shell_command rel
          if dry_run then
            mbind (print_command container_inspect_command) fun _ =>
            mbind (print_command container_start_command) fun _ =>
            print_command container_enter_command
          else
            mbind
              (if i0.state.running then evOk ()
               else
                 mbind (spawnM w container_start_command) fun st =>
                 match st with
                 | RunResult.err _ => panicM "Failed to run command"
                 | RunResult.ok code _ =>
                   match code with
                   | some x =>
                     if x ≠ 0 then
                       mbind (eprintM "Failed to start container") fun _ => exitM 1
                     else evOk ()
                   | none => evOk ()) fun _ =>
            ([Event.spawn container_enter_command],
             Except.error (Abort.execed container_enter_command))

/-- `handle_enter` (src/main.rs:841-849). -/
def handle_enter (w : World) (cfg : Config) (name : String)
    (user shell : Option String) (all : AllArgs) : M Unit :=
  enter_container w cfg name user shell all.dry_run []

/-- `handle_create` (src/main.rs:620-697). -/
def handle_create (w : World) (cfg : Config) (name : String)
    (common : SharedArgs) (all : AllArgs) : M Unit :=
  let container_inspect_command := generate_container_inspect_command cfg name
  mbind (if all.dry_run then print_command container_inspect_command else evOk ()) fun _ =>
  mbind (generate_create_container_command w cfg common.image name common.root false
          common.pass_through common.directory common.no_dir common.volume
          all.dry_run) fun r =>
  match r with
  | (cmd0, create_user, container_user_id, _container_user_gid, _image) =>
    let create_container_command := cmd0 ++ ["/bin/sh"]
    if all.dry_run then print_command create_container_command
    else
      mbind (spawnM w container_inspect_command) fun result =>
      mbind
        (match result with
         | RunResult.err _ => panicM "Failed to run command"
         | RunResult.ok code _ =>
           if code = some 0 then
             mbind (eprintM ("A container with name \x27" ++ name ++ "\x27 already exists")) fun _ =>
             exitM 1
           else evOk ()) fun _ =>
      mbind (spawnM w create_container_command) fun created =>
      mbind
        (match created with
         | RunResult.err _ => panicM "Failed to run command"
         | RunResult.ok _ _ => evOk ()) fun _ =>
      let initial_enter_script :=
        if ¬ common.root then
          ["/bin/sh", "-c",
           create_initial_enter_script w.initScript create_user NEW_USER_USERNAME
             container_user_id cfg.unsafe_setup_passwordless_sudo cfg.no_password
             cfg.install_sudo common.shell all.verbose]
        else []
      enter_container w cfg name (some "root") common.shell all.dry_run
        initial_enter_script

/-- `handle_temp` (src/main.rs:995-1057). -/
def handle_temp (w : World) (cfg : Config) (common : SharedArgs) (all : AllArgs) :
    M Unit :=
  let shell : List String :=
    match common.shell with
    | some s => [s]
    | none => DEFAULT_SHELL
  mbind (generate_create_container_command w cfg common.image "" common.root true
          common.pass_through common.directory common.no_dir common.volume
          all.dry_run) fun r =>
  match r with
  | (cmd0, create_user, container_user_id, _container_user_gid, _image) =>
    let user_command :=
      if ¬ common.root then
        ["/bin/sh", "-c",
         create_initial_enter_script w.initScript create_user NEW_USER_USERNAME
           container_user_id cfg.unsafe_setup_passwordless_sudo cfg.no_password
           cfg.install_sudo common.shell all.verbose]
      else shell
    let create_container_command := cmd0 ++ user_command
    if all.dry_run then print_command create_container_command
    else
      mbind (spawnM w create_container_command) fun result =>
      match result with
      | RunResult.err m => eprintM m
      | RunResult.ok _ _ => evOk ()

/-- `handle_remove` (src/main.rs:969-993). -/
def handle_remove (w : World) (cfg : Config) (all : AllArgs) : List String → M Unit
  | [] => evOk ()
  | name :: rest =>
    let stop_container_command := generate_container_stop_command cfg name
    let delete_container_command := generate_container_delete_command cfg name
    mbind
      (if all.dry_run then
        mbind (print_command stop_container_command) fun _ =>
        print_command delete_container_command
      else
        mbind (printM ("Deleting container " ++ name)) fun _ =>
        mbind (spawnM w stop_container_command) fun r1 =>
        mbind
          (match r1 with
           | RunResult.err _ => panicM "Failed to execute command"
           | RunResult.ok _ _ => evOk ()) fun _ =>
        mbind (spawnM w delete_container_command) fun r2 =>
        match r2 with
        | RunResult.err _ => panicM "Failed to execute command"
        | RunResult.ok _ _ => evOk ()) fun _ =>
    handle_remove w cfg all rest

/-- `handle_restart` (src/main.rs:1114-1136). -/
def handle_restart (w : World) (cfg : Config) (all : AllArgs) : List String → M Unit
  | [] => evOk ()
  | name :: rest =>
    let stop_container_command := generate_container_stop_command cfg name
    let start_container_command := generate_container_start_command cfg name
    mbind
      (if all.dry_run then
        mbind (print_command stop_container_command) fun _ =>
        print_command start_container_command
      else
        mbind (spawnM w stop_container_command) fun r1 =>
        mbind
          (match r1 with
           | RunResult.err _ => panicM "Failed to execute command"
           | RunResult.ok _ _ => evOk ()) fun _ =>
        mbind (spawnM w start_container_command) fun r2 =>
        match r2 with
        | RunResult.err _ => panicM "Failed to execute command"
        | RunResult.ok _ _ => evOk ()) fun _ =>
    handle_restart w cfg all rest

/-- `handle_list` (src/main.rs:1073-1084). -/
def handle_list (w : World) (cfg : Config) (all : AllArgs) : M Unit :=
  let list_containers_command := generate_list_containers_command cfg
  if all.dry_run then print_command list_containers_command
  else
    mbind (spawnM w list_containers_command) fun r =>
    match r with
    | RunResult.err _ => panicM "Failed to execute command"
    | RunResult.ok _ _ => evOk ()

/-- `handle_config_show` (src/main.rs:1138-1148). -/
def handle_config_show (w : World) : M Unit :=
  match w.configFileContents with
  | some x =>
    mbind (printM ("# Viewing \x27" ++ w.configPath ++ "\x27")) fun _ => printM x
  | none => eprintM ("Config file not found at " ++ w.configPath)

/-- Rust `Debug` escaping of a string body. -/
def rustDebugEsc : List Char → List Char
  | [] => []
  | c :: rest =>
    (if c = cBack then [cBack, cBack]
     else if c = cQuote then [cBack, cQuote]
     else if c = '\n' then [cBack, 'n']
     else if c = '\t' then [cBack, 't']
     else if c = '\r' then [cBack, 'r']
     else [c]) ++ rustDebugEsc rest

/-- Rust `Debug` rendering of a string. -/
def rustDebugStr (s : String) : String :=
  String.mk ([cQuote] ++ rustDebugEsc s.data ++ [cQuote])

/-- Rust `Debug` rendering of `Option<String>`. -/
def debugOptStr : Option String → String
  | some s => "Some(" ++ rustDebugStr s ++ ")"
  | none => "None"

/-- Rust `Debug` rendering of `Option<bool>`. -/
def debugOptBool : Option Bool → String
  | some true => "Some(true)"
  | some false => "Some(false)"
  | none => "None"

/-- Rust `Debug` rendering of `bool`. -/
def debugBool (b : Bool) : String := if b then "true" else "false"

/-- The derived `Debug` rendering of `Config`, printed by `Context::run`
for the create subcommand (src/main.rs:359). -/
def debugConfig (c : Config) : String :=
  "Config \x7b image: " ++ debugOptStr c.image ++
  ", sudo_command: " ++ rustDebugStr c.sudo_command ++
  ", install_sudo: " ++ debugOptBool c.install_sudo ++
  ", no_password: " ++ debugBool c.no_password ++
  ", unsafe_setup_passwordless_sudo: " ++ debugBool c.unsafe_setup_passwordless_sudo ++
  " \x7d"

/-- The parsed CLI subcommand (src/main.rs:106-122). -/
inductive Command where
  | create (name : String) (common : SharedArgs) (all : AllArgs)
  | enter (name : String) (user shell : Option String) (all : AllArgs)
  | remove (names : List String) (all : AllArgs)
  | temp (common : SharedArgs) (all : AllArgs)
  | list (all : AllArgs)
  | restart (names : List String) (all : AllArgs)
  | configShow
  | configPath
  | noCommand
deriving DecidableEq

/-- The dry-run flag of a subcommand (the config subcommands carry none). -/
def cmdDry : Command → Bool
  | Command.create _ _ all => all.dry_run
  | Command.enter _ _ _ all => all.dry_run
  | Command.remove _ all => all.dry_run
  | Command.temp _ all => all.dry_run
  | Command.list all => all.dry_run
  | Command.restart _ all => all.dry_run
  | _ => false

/-- `Context::run` (src/main.rs:354-378): dispatch one parsed CLI
invocation, resolving the create/temp configuration first. -/
def runCommand (w : World) (base : BaseConfig)
    (profiles : List (String × BaseConfig)) (env : BaseConfig) :
    Command → M Unit
  | Command.create name common all =>
    let cfg := resolve_config_args_create_tmp base profiles env (cliArgsOf common)
    mbind (eprintM (debugConfig cfg)) fun _ =>
    handle_create w cfg name common all
  | Command.enter name user shell all =>
    handle_enter w (mainPassConfig base env) name user shell all
  | Command.remove names all => handle_remove w (mainPassConfig base env) all names
  | Command.temp common all =>
    let cfg := resolve_config_args_create_tmp base profiles env (cliArgsOf common)
    handle_temp w cfg common all
  | Command.list all => handle_list w (mainPassConfig base env) all
  | Command.restart names all => handle_restart w (mainPassConfig base env) all names
  | Command.configShow => handle_config_show w
  | Command.configPath => printM w.configPath
  | Command.noCommand => evOk ()

/-! ## Theorems -/

/-! ### Helper lemmas -/

theorem foldl_profile_no_match {g : String × BaseConfig → Config} {img : String}
    {l : List (String × BaseConfig)} (c0 : Config) (h : ∀ p ∈ l, p.1 ≠ img) :
    l.foldl (fun acc p => if p.1 = img then g p else acc) c0 = c0 := by
  induction l generalizing c0 with
  | nil => rfl
  | cons p rest ih =>
    simp only [List.foldl_cons, if_neg (h p (List.mem_cons_self p rest))]
    exact ih c0 fun q hq => h q (List.mem_cons_of_mem _ hq)

theorem foldl_profile_eq_find (g : String × BaseConfig → Config) (img : String)
    (l : List (String × BaseConfig)) (c0 : Config)
    (h : (l.map Prod.fst).Nodup) :
    l.foldl (fun acc p => if p.1 = img then g p else acc) c0 =
      (match l.find? (fun p => p.1 = img) with
       | some p => g p
       | none => c0) := by
  induction l with
  | nil => rfl
  | cons p rest ih =>
    simp only [List.map_cons, List.nodup_cons] at h
    by_cases hp : p.1 = img
    · rw [List.find?_cons_of_pos _ (by simpa using hp)]
      simp only [List.foldl_cons, if_pos hp]
      exact foldl_profile_no_match (g p) fun q hq hq1 =>
        h.1 (by rw [hp, ← hq1]; exact List.mem_map_of_mem Prod.fst hq)
    · rw [List.find?_cons_of_neg _ (by simpa using hp)]
      simp only [List.foldl_cons, if_neg hp]
      exact ih h.2

theorem mbind_snd_ok {α β : Type} {x : M α} {f : α → M β} {b : β}
    (h : (mbind x f).2 = Except.ok b) :
    ∃ a, x.2 = Except.ok a ∧ (f a).2 = Except.ok b := by
  obtain ⟨e, exc⟩ := x
  cases exc with
  | error er => simp [mbind] at h
  | ok a => exact ⟨a, rfl, by simpa [mbind] using h⟩

/-- Inversion of a successful `generate_create_container_command`: the
returned vector is the assembly of the fixed blocks around the returned
identity, and the additional mounts were built successfully with the same
idmap expression as the primary mount. -/
theorem generate_ok_inv {w : World} {cfg : Config} {image : Option String}
    {name : String} {root temp : Bool} {pt dir : Option String} {nd : Bool}
    {mounts : List String} {dry : Bool} {evs : List Event} {args : List String}
    {cu : Bool} {u g : Int} {i : String}
    (h : generate_create_container_command w cfg image name root temp pt dir nd
          mounts dry = (evs, Except.ok (args, cu, u, g, i))) :
    ∃ current_dir addl,
      (buildAdditionalMounts (idmap_parameters root w.euid w.egid u g) mounts).2
        = Except.ok addl ∧
      args = assembleArgs cfg name temp pt nd (SEABOX_NAME ++ "-" ++ name)
        (mountArg current_dir "/mount/" (idmap_parameters root w.euid w.egid u g))
        addl u g i := by
  have h2 : (generate_create_container_command w cfg image name root temp pt dir nd
      mounts dry).2 = Except.ok (args, cu, u, g, i) := by rw [h]
  unfold generate_create_container_command at h2
  obtain ⟨r, hpre, hfin⟩ := mbind_snd_ok h2
  obtain ⟨img, cu', u', g', cd, addl⟩ := r
  simp only [evOk] at hfin
  have h3 := Except.ok.inj hfin
  simp only [Prod.mk.injEq] at h3
  obtain ⟨ha, hcu, hu, hg, hi⟩ := h3
  subst hu
  subst hg
  subst hi
  unfold genPrelude at hpre
  obtain ⟨img2, _, hpre2⟩ := mbind_snd_ok hpre
  obtain ⟨ids, _, hpre3⟩ := mbind_snd_ok hpre2
  obtain ⟨cd2, _, hpre4⟩ := mbind_snd_ok hpre3
  obtain ⟨addl2, haddl, hfin2⟩ := mbind_snd_ok hpre4
  simp only [evOk] at hfin2
  have h4 := Except.ok.inj hfin2
  simp only [Prod.mk.injEq] at h4
  obtain ⟨he1, he2, he3, he4, he5, he6⟩ := h4
  refine ⟨cd, addl, ?_, ha.symm⟩
  rw [he3, he4, he6] at haddl
  exact haddl

/-! ### Claim C7: user-supplied mount specifiers -/

/-- Claim C7: a mount specifier splitting on `:` into exactly two fields
`h` and `c` contributes exactly one additional `--mount` pair
`type=bind,source=h,destination=c,idmap=uids=E` with `E` the idmap
expression of the primary mount; any other number of colon-separated
fields is a fatal error (diagnostic plus exit 1). -/
theorem C7_mount_specifier :
    (∀ (idmap spec hd cd : String), splitColon spec = [hd, cd] →
      buildAdditionalMounts idmap [spec] =
        ([], Except.ok ["--mount", mountArg hd cd idmap])) ∧
    (∀ (idmap spec : String), (splitColon spec).length ≠ 2 →
      buildAdditionalMounts idmap [spec] =
        ([Event.eprint ("Invalid format for mount: " ++ spec)],
         Except.error (Abort.exited 1))) ∧
    (∀ (w : World) (cfg : Config) (image : Option String) (name : String)
       (root temp : Bool) (pt dir : Option String) (nd : Bool)
       (spec hd cd : String) (dry : Bool) (evs : List Event)
       (args : List String) (cu : Bool) (u g : Int) (i : String),
      splitColon spec = [hd, cd] →
      generate_create_container_command w cfg image name root temp pt dir nd
          [spec] dry = (evs, Except.ok (args, cu, u, g, i)) →
      ["--mount", mountArg hd cd (idmap_parameters root w.euid w.egid u g)]
        <:+: args) := by
  have hone : ∀ (idmap spec hd cd : String), splitColon spec = [hd, cd] →
      buildAdditionalMounts idmap [spec] =
        ([], Except.ok ["--mount", mountArg hd cd idmap]) := by
    intro idmap spec hd cd hs
    simp [buildAdditionalMounts, hs, mbind, evOk]
  refine ⟨hone, ?_, ?_⟩
  · intro idmap spec hlen
    rcases hs : splitColon spec with _ | ⟨a, _ | ⟨b, _ | ⟨c, rest⟩⟩⟩
    · simp [buildAdditionalMounts, hs, mbind, eprintM, exitM]
    · simp [buildAdditionalMounts, hs, mbind, eprintM, exitM]
    · rw [hs] at hlen
      simp at hlen
    · simp [buildAdditionalMounts, hs, mbind, eprintM, exitM]
  · intro w cfg image name root temp pt dir nd spec hd cd dry evs args cu u g i hs h
    obtain ⟨current_dir, addl, haddl, ha⟩ := generate_ok_inv h
    rw [hone _ _ _ _ hs] at haddl
    have haddl2 : addl = ["--mount",
        mountArg hd cd (idmap_parameters root w.euid w.egid u g)] :=
      (Except.ok.inj haddl).symm
    subst haddl2
    subst ha
    exact ⟨[cfg.sudo_command, "podman", "run", "--label", SEABOX_NAME ++ "=true",
        "--privileged", "-it"] ++ [if temp then "--rm" else "-d"] ++ ptArgs pt ++
        ["--network", "host", "--hostname", SEABOX_NAME ++ "-" ++ name,
         "--add-host", SEABOX_NAME ++ "-" ++ name ++ ":127.0.0.1", "-u",
         user_string temp u g, "--passwd=false", "-w", "/mount/"] ++
        (if nd then []
         else ["--mount", mountArg current_dir "/mount/"
                (idmap_parameters root w.euid w.egid u g)]),
      ["--name", name, i], by simp [assembleArgs]⟩

/-! ### Claim C9: ephemeral versus persistent argument vectors -/

/-- Claim C9: every ephemeral (temp) creation vector contains `--rm` and
runs as `-u 0:0` regardless of the resolved identity, while every
persistent (create) vector contains `-d` and `-u U:V` for the resolved
container UID:GID. -/
theorem C9_temp_vs_persistent :
    ∀ (w : World) (cfg : Config) (image : Option String) (name : String)
      (root : Bool) (pt dir : Option String) (nd : Bool)
      (mounts : List String) (dry : Bool) (evs : List Event)
      (args : List String) (cu : Bool) (u g : Int) (i : String),
      (generate_create_container_command w cfg image name root true pt dir nd
          mounts dry = (evs, Except.ok (args, cu, u, g, i)) →
        "--rm" ∈ args ∧ ["-u", "0:0"] <:+: args) ∧
      (generate_create_container_command w cfg image name root false pt dir nd
          mounts dry = (evs, Except.ok (args, cu, u, g, i)) →
        "-d" ∈ args ∧ ["-u", toString u ++ ":" ++ toString g] <:+: args) := by
  intro w cfg image name root pt dir nd mounts dry evs args cu u g i
  have hinstr : ∀ temp, generate_create_container_command w cfg image name root
      temp pt dir nd mounts dry = (evs, Except.ok (args, cu, u, g, i)) →
      (if temp then "--rm" else "-d") ∈ args ∧
      ["-u", user_string temp u g] <:+: args := by
    intro temp h
    obtain ⟨current_dir, addl, _, ha⟩ := generate_ok_inv h
    subst ha
    constructor
    · simp [assembleArgs]
    · exact ⟨[cfg.sudo_command, "podman", "run", "--label",
          SEABOX_NAME ++ "=true", "--privileged", "-it"] ++
          [if temp then "--rm" else "-d"] ++ ptArgs pt ++
          ["--network", "host", "--hostname", SEABOX_NAME ++ "-" ++ name,
           "--add-host", SEABOX_NAME ++ "-" ++ name ++ ":127.0.0.1"],
        ["--passwd=false", "-w", "/mount/"] ++
          (if nd then []
           else ["--mount", mountArg current_dir "/mount/"
                  (idmap_parameters root w.euid w.egid u g)]) ++
          addl ++ ["--name", name, i], by simp [assembleArgs]⟩
  constructor
  · intro h
    have := hinstr true h
    simpa [user_string] using this
  · intro h
    have := hinstr false h
    simpa [user_string] using this

/-! ### Claim C10: unparsable pass-through strings -/

/-- Claim C10: when shell-word splitting of the pass-through string fails,
synthesis silently adds no pass-through arguments and raises no error: the
result equals the one with no pass-through string at all. -/
theorem C10_passthrough_split_failure :
    ∀ (w : World) (cfg : Config) (image : Option String) (name : String)
      (root temp : Bool) (s : String) (dir : Option String) (nd : Bool)
      (mounts : List String) (dry : Bool),
      shlexSplit s = none →
      generate_create_container_command w cfg image name root temp (some s)
          dir nd mounts dry =
      generate_create_container_command w cfg image name root temp none
          dir nd mounts dry := by
  intro w cfg image name root temp s dir nd mounts dry h
  have hpt : ptArgs (some s) = ptArgs none := by simp [ptArgs, h]
  unfold generate_create_container_command
  refine congrArg (mbind (genPrelude w cfg image root dry dir mounts))
    (funext fun r => ?_)
  obtain ⟨img, cu, u, g, cd, addl⟩ := r
  simp only [assembleArgs, hpt]

/-! ### Claim C8: the enter-time relative path -/

/-- Claim C8: when the current directory lies inside the recorded mount
source the relative path is the current directory with the source prefix
stripped and entry happens at `/mount/` followed by it; otherwise the
relative path is empty and entry lands at the mount root rather than
failing.  The last conjunct exhibits the exec command built by a dry-run
enter under those rules. -/
theorem C8_enter_relative_path :
    (∀ S D : String, D.data.head? = some '/' →
      ((pathAbsolute D S).isPrefixOf (pathComponents D) = true →
        enterRelativePath S D =
          intercalateStr "/" ((pathComponents D).drop (pathAbsolute D S).length)) ∧
      ((pathAbsolute D S).isPrefixOf (pathComponents D) = false →
        enterRelativePath S D = "")) ∧
    enterRelativePath "/home/u/proj" "/home/u/proj/sub" = "sub" ∧
    enterRelativePath "/home/u/proj" "/somewhere/else" = "" ∧
    (∀ (cfg : Config) (user name rel : String) (ec : List String),
      generate_container_enter_command cfg user name ec rel =
        [cfg.sudo_command, "podman", "exec", "-it", "-w", "/mount/" ++ rel,
         "--user", user, name] ++ ec) ∧
    (∀ (w : World) (cfg : Config) (name sh out S D usr : String) (running : Bool),
      w.run (generate_container_inspect_command cfg name) = RunResult.ok (some 0) out →
      w.parseContainerInspect out = some [⟨[⟨S⟩], ⟨running⟩, ⟨usr⟩⟩] →
      S ≠ "" →
      w.cwd = some D →
      enter_container w cfg name none (some sh) true [] =
        mbind (spawnM w (generate_container_inspect_command cfg name)) fun _ =>
        mbind (print_command (generate_container_inspect_command cfg name)) fun _ =>
        mbind (print_command (generate_container_start_command cfg name)) fun _ =>
        print_command (generate_container_enter_command cfg usr name [sh]
          (enterRelativePath S D))) := by
  refine ⟨?_, by decide, by decide, fun cfg user name rel ec => rfl, ?_⟩
  · intro S D hD
    have hDD : pathAbsolute D D = pathComponents D := by
      simp [pathAbsolute, hD]
    constructor
    · intro hpre
      simp only [enterRelativePath, hDD, hpre, if_true]
    · intro hpre
      simp only [enterRelativePath, hDD, hpre, Bool.false_eq_true, if_false]
  · intro w cfg name sh out S D usr running hrun hparse hS hcwd
    simp [enter_container, hrun, hparse, hcwd, spawnM, mbind, evOk, hS]

/-- A concrete world whose executor always reports success with empty
output. -/
def w0 : World :=
  { run := fun _ => RunResult.ok (some 0) ""
    parseImageInspect := fun _ => none
    parseContainerInspect := fun _ => none
    canonicalize := fun _ => none
    cwd := some "/work"
    euid := 1000
    egid := 1000
    initScript := ""
    configPath := "/cfg"
    configFileContents := none }

/-- A concrete resolved configuration. -/
def cfg0 : Config :=
  { image := some "img", sudo_command := "sudo", install_sudo := none,
    no_password := false, unsafe_setup_passwordless_sudo := false }

/-! ### Claim C5: the SEABOX_USER_ID label short-circuits the scan -/

/-- Claim C5: when the image-inspect metadata carries the label
`SEABOX_USER_ID=1500`, identity resolution returns `(1500, 1500)` and the
image inspection is the only process spawned (the passwd dump never runs);
the creation synthesis then reports `create_user = false` with that
identity. -/
theorem C5_label_short_circuit :
    ∀ (w : World) (cfg : Config) (img out : String)
      (labels : List (String × String)) (name : String) (temp nd : Bool)
      (d : String),
      w.run (generate_image_inspect_command cfg img) = RunResult.ok (some 0) out →
      w.parseImageInspect out = some [⟨some labels⟩] →
      mapGet labels "SEABOX_USER_ID" = some "1500" →
      w.cwd = some d →
      determine_container_uid_gid w cfg img false =
        ([Event.spawn (generate_image_inspect_command cfg img)],
         Except.ok (some (1500, 1500))) ∧
      (∃ evs args, generate_create_container_command w cfg (some img) name false
          temp none none nd [] false =
        (evs, Except.ok (args, false, 1500, 1500, img))) := by
  intro w cfg img out labels name temp nd d hrun hparse hlabel hcwd
  have hp : parseI64 "1500" = some (1500 : Int) := by decide
  have hdet : determine_container_uid_gid w cfg img false =
      ([Event.spawn (generate_image_inspect_command cfg img)],
       Except.ok (some (1500, 1500))) := by
    simp [determine_container_uid_gid, image_inspect, hrun, hparse, spawnM,
      mbind, evOk, imageLabelUid, hlabel, hp]
  refine ⟨hdet, [Event.spawn (generate_image_inspect_command cfg img)],
    assembleArgs cfg name temp none nd (SEABOX_NAME ++ "-" ++ name)
      (mountArg d "/mount/" (idmap_parameters false w.euid w.egid 1500 1500))
      [] 1500 1500 img, ?_⟩
  simp [generate_create_container_command, genPrelude, resolveImageM,
    resolve_image, identityStep, resolveDirM, buildAdditionalMounts, hdet,
    hcwd, mbind, evOk]

/-- A concrete world carrying the `SEABOX_USER_ID=1500` label. -/
def w5 : World :=
  { run := fun _ => RunResult.ok (some 0) "out"
    parseImageInspect := fun _ => some [⟨some [("SEABOX_USER_ID", "1500")]⟩]
    parseContainerInspect := fun _ => none
    canonicalize := fun _ => none
    cwd := some "/work"
    euid := 1000
    egid := 1000
    initScript := ""
    configPath := "/cfg"
    configFileContents := none }

/-- Witness for C5 in the concrete world `w5`. -/
theorem C5_witness :
    determine_container_uid_gid w5 cfg0 "img" false =
      ([Event.spawn (generate_image_inspect_command cfg0 "img")],
       Except.ok (some (1500, 1500))) ∧
    (∃ evs args, generate_create_container_command w5 cfg0 (some "img") "box"
        false false none none false [] false =
      (evs, Except.ok (args, false, 1500, 1500, "img"))) :=
  C5_label_short_circuit w5 cfg0 "img" "out" [("SEABOX_USER_ID", "1500")]
    "box" false false "/work" rfl rfl rfl rfl

/-! ### Claim C6: no label, no in-band user -/

/-- Claim C6: with no `SEABOX_USER_ID` label and no passwd entry with uid
in `[1000, 2000)`, identity resolution returns the sentinel `none`, and
the creation synthesis reports `create_user = true` with the fixed default
identity 1000:1000. -/
theorem C6_no_candidate_fallback :
    ∀ (w : World) (cfg : Config) (img out pout : String)
      (inspect : List PodmanImageInspectFormat)
      (entries : List (String × Int × Int)) (code : Option Int)
      (name : String) (temp nd : Bool) (d : String),
      w.run (generate_image_inspect_command cfg img) = RunResult.ok (some 0) out →
      w.parseImageInspect out = some inspect →
      imageLabelUid inspect = none →
      w.run (generate_cat_etc_password_command cfg img) = RunResult.ok code pout →
      parsePasswdAll pout = some entries →
      (∀ e ∈ entries, ¬(1000 ≤ e.2.1 ∧ e.2.1 < 2000)) →
      w.cwd = some d →
      determine_container_uid_gid w cfg img false =
        ([Event.spawn (generate_image_inspect_command cfg img),
          Event.spawn (generate_cat_etc_password_command cfg img)],
         Except.ok none) ∧
      (∃ evs args, generate_create_container_command w cfg (some img) name false
          temp none none nd [] false =
        (evs, Except.ok (args, true, 1000, 1000, img))) := by
  intro w cfg img out pout inspect entries code name temp nd d hrun hparse
    hlabel hcat hpasswd hband hcwd
  have hsel : selectBest entries = none := by
    have hf : entries.filter
        (fun x => decide (1000 ≤ x.2.1) && decide (x.2.1 < 2000)) = [] := by
      rw [List.filter_eq_nil_iff]
      intro e he
      simpa using hband e he
    simp [selectBest, hf]
  have hdet : determine_container_uid_gid w cfg img false =
      ([Event.spawn (generate_image_inspect_command cfg img),
        Event.spawn (generate_cat_etc_password_command cfg img)],
       Except.ok none) := by
    simp [determine_container_uid_gid, image_inspect, hrun, hparse, hlabel,
      hcat, hpasswd, hsel, spawnM, mbind, evOk]
  refine ⟨hdet, [Event.spawn (generate_image_inspect_command cfg img),
      Event.spawn (generate_cat_etc_password_command cfg img)],
    assembleArgs cfg name temp none nd (SEABOX_NAME ++ "-" ++ name)
      (mountArg d "/mount/" (idmap_parameters false w.euid w.egid 1000 1000))
      [] 1000 1000 img, ?_⟩
  simp [generate_create_container_command, genPrelude, resolveImageM,
    resolve_image, identityStep, resolveDirM, buildAdditionalMounts, hdet,
    hcwd, mbind, evOk]

/-- A concrete world with no label and a passwd dump whose only user is
root. -/
def w6 : World :=
  { run := fun argv =>
      if argv = generate_cat_etc_password_command cfg0 "img" then
        RunResult.ok (some 0) "root:x:0:0:root:/root:/bin/sh\n"
      else RunResult.ok (some 0) "out"
    parseImageInspect := fun _ => some [⟨none⟩]
    parseContainerInspect := fun _ => none
    canonicalize := fun _ => none
    cwd := some "/work"
    euid := 1000
    egid := 1000
    initScript := ""
    configPath := "/cfg"
    configFileContents := none }

/-- Witness for C6 in the concrete world `w6`. -/
theorem C6_witness :
    determine_container_uid_gid w6 cfg0 "img" false =
      ([Event.spawn (generate_image_inspect_command cfg0 "img"),
        Event.spawn (generate_cat_etc_password_command cfg0 "img")],
       Except.ok none) ∧
    (∃ evs args, generate_create_container_command w6 cfg0 (some "img") "box"
        false false none none false [] false =
      (evs, Except.ok (args, true, 1000, 1000, "img"))) :=
  C6_no_candidate_fallback w6 cfg0 "img" "out" "root:x:0:0:root:/root:/bin/sh\n"
    [⟨none⟩] [("root", 0, 0)] (some 0) "box" false false "/work"
    (by decide) rfl rfl (by decide) (by decide) (by decide) rfl

/-! ### Shared concrete instances for witnesses -/

/-- The vector synthesized by a root-mode ephemeral creation in `w0`. -/
def argsTemp0 : List String :=
  ["sudo", "podman", "run", "--label", "seabox=true", "--privileged", "-it",
   "--rm", "--network", "host", "--hostname", "seabox-box", "--add-host",
   "seabox-box:127.0.0.1", "-u", "0:0", "--passwd=false", "-w", "/mount/",
   "--mount", "type=bind,source=/work,destination=/mount/,idmap=uids=0-0-2000;gids=0-0-2000",
   "--name", "box", "img"]

/-- The vector synthesized by a root-mode persistent creation in `w0`. -/
def argsCreate0 : List String :=
  ["sudo", "podman", "run", "--label", "seabox=true", "--privileged", "-it",
   "-d", "--network", "host", "--hostname", "seabox-box", "--add-host",
   "seabox-box:127.0.0.1", "-u", "0:0", "--passwd=false", "-w", "/mount/",
   "--mount", "type=bind,source=/work,destination=/mount/,idmap=uids=0-0-2000;gids=0-0-2000",
   "--name", "box", "img"]

/-- The vector synthesized by a root-mode ephemeral creation in `w0` with
the additional mount specifier `/a:/b`. -/
def argsMount0 : List String :=
  ["sudo", "podman", "run", "--label", "seabox=true", "--privileged", "-it",
   "--rm", "--network", "host", "--hostname", "seabox-box", "--add-host",
   "seabox-box:127.0.0.1", "-u", "0:0", "--passwd=false", "-w", "/mount/",
   "--mount", "type=bind,source=/work,destination=/mount/,idmap=uids=0-0-2000;gids=0-0-2000",
   "--mount", "type=bind,source=/a,destination=/b,idmap=uids=0-0-2000;gids=0-0-2000",
   "--name", "box", "img"]

/-- Witness for C7: the two fatal/non-fatal specifier shapes and the
synthesized additional mount inside a full creation vector. -/
theorem C7_witness :
    buildAdditionalMounts "E" ["/a/b:/c/d"] =
      ([], Except.ok ["--mount", mountArg "/a/b" "/c/d" "E"]) ∧
    buildAdditionalMounts "E" ["/a:/b:/c"] =
      ([Event.eprint "Invalid format for mount: /a:/b:/c"],
       Except.error (Abort.exited 1)) ∧
    ["--mount", mountArg "/a" "/b" (idmap_parameters true w0.euid w0.egid 0 0)]
      <:+: argsMount0 :=
  ⟨C7_mount_specifier.1 "E" "/a/b:/c/d" "/a/b" "/c/d" (by decide),
   C7_mount_specifier.2.1 "E" "/a:/b:/c" (by decide),
   C7_mount_specifier.2.2 w0 cfg0 (some "img") "box" true true none none false
     "/a:/b" "/a" "/b" false [] argsMount0 false 0 0 "img" (by decide) (by rfl)⟩

/-- Witness for C9: the concrete ephemeral and persistent vectors. -/
theorem C9_witness :
    ("--rm" ∈ argsTemp0 ∧ ["-u", "0:0"] <:+: argsTemp0) ∧
    ("-d" ∈ argsCreate0 ∧
      ["-u", toString (0 : Int) ++ ":" ++ toString (0 : Int)] <:+: argsCreate0) :=
  ⟨(C9_temp_vs_persistent w0 cfg0 (some "img") "box" true none none false [] false
      [] argsTemp0 false 0 0 "img").1 (by rfl),
   (C9_temp_vs_persistent w0 cfg0 (some "img") "box" true none none false [] false
      [] argsCreate0 false 0 0 "img").2 (by rfl)⟩

/-- Witness for C10: a lone double quote fails to tokenize and the
synthesized vectors coincide. -/
theorem C10_witness :
    generate_create_container_command w0 cfg0 (some "img") "box" true false
        (some (String.mk [cQuote])) none false [] false =
      generate_create_container_command w0 cfg0 (some "img") "box" true false
        none none false [] false :=
  C10_passthrough_split_failure w0 cfg0 (some "img") "box" true false
    (String.mk [cQuote]) none false [] false (by decide)

/-- A concrete world for the enter-time witness: the recorded mount source
is `/home/u/proj` and the caller sits in `/home/u/proj/sub`. -/
def w8 : World :=
  { run := fun _ => RunResult.ok (some 0) "out"
    parseImageInspect := fun _ => none
    parseContainerInspect := fun _ =>
      some [⟨[⟨"/home/u/proj"⟩], ⟨true⟩, ⟨"root"⟩⟩]
    canonicalize := fun _ => none
    cwd := some "/home/u/proj/sub"
    euid := 1000
    egid := 1000
    initScript := ""
    configPath := "/cfg"
    configFileContents := none }

/-- Witness for C8: the inside/outside computations at concrete paths and
the dry-run enter trace from `/home/u/proj/sub` into a container mounted
from `/home/u/proj`. -/
theorem C8_witness :
    enterRelativePath "/home/u/proj" "/home/u/proj/sub" =
      intercalateStr "/"
        ((pathComponents "/home/u/proj/sub").drop
          (pathAbsolute "/home/u/proj/sub" "/home/u/proj").length) ∧
    enterRelativePath "/home/u/proj" "/somewhere/else" = "" ∧
    enter_container w8 cfg0 "box" none (some "sh") true [] =
      mbind (spawnM w8 (generate_container_inspect_command cfg0 "box")) fun _ =>
      mbind (print_command (generate_container_inspect_command cfg0 "box")) fun _ =>
      mbind (print_command (generate_container_start_command cfg0 "box")) fun _ =>
      print_command (generate_container_enter_command cfg0 "root" "box" ["sh"]
        (enterRelativePath "/home/u/proj" "/home/u/proj/sub")) :=
  ⟨(C8_enter_relative_path.1 "/home/u/proj" "/home/u/proj/sub" (by decide)).1
      (by decide),
   (C8_enter_relative_path.1 "/home/u/proj" "/somewhere/else" (by decide)).2
      (by decide),
   C8_enter_relative_path.2.2.2.2 w8 cfg0 "box" "sh" "out" "/home/u/proj"
     "/home/u/proj/sub" "root" true (by decide) (by decide) (by decide) (by decide)⟩

/-! ### Claim C2: configuration precedence -/

/-- Claim C2: for every configuration field, the resolved effective
configuration takes the value of the highest-precedence source that sets
it, with precedence CLI > environment > matched per-image profile > global
profile > built-in defaults, where the per-image profile is the one whose
key equals the provisional image name of the first merge pass (CLI over
environment over global profile), so an image name supplied only on the
CLI still activates its matching profile. -/
theorem C2_config_precedence (base : BaseConfig)
    (profiles : List (String × BaseConfig)) (env : BaseConfig)
    (cli : CliConfigArgs) (hnd : (profiles.map Prod.fst).Nodup) :
    resolve_config_args_create_tmp base profiles env cli =
      { image := cli.image.orElse fun _ => env.image.orElse fun _ =>
          ((matchedProfile base profiles env cli).bind (fun p => p.image)).orElse
            fun _ => base.image
        sudo_command := ((env.sudo_command.orElse fun _ =>
          ((matchedProfile base profiles env cli).bind
            (fun p => p.sudo_command)).orElse fun _ =>
              base.sudo_command)).getD DEFAULT_SUDO_PATH
        install_sudo := cli.install_sudo.orElse fun _ =>
          env.install_sudo.orElse fun _ =>
          ((matchedProfile base profiles env cli).bind
            (fun p => p.install_sudo)).orElse fun _ => base.install_sudo
        no_password := ((cli.no_password.orElse fun _ =>
          env.no_password.orElse fun _ =>
          ((matchedProfile base profiles env cli).bind
            (fun p => p.no_password)).orElse fun _ =>
              base.no_password)).getD false
        unsafe_setup_passwordless_sudo :=
          ((cli.unsafe_setup_passwordless_sudo.orElse fun _ =>
          env.unsafe_setup_passwordless_sudo.orElse fun _ =>
          ((matchedProfile base profiles env cli).bind
            (fun p => p.unsafe_setup_passwordless_sudo)).orElse fun _ =>
              base.unsafe_setup_passwordless_sudo)).getD false } := by
  have hprov : (applyCli (mainPassConfig base env) cli).image =
      provisionalImage base env cli := by
    simp only [applyCli, mainPassConfig, applyBase, defaultConfig, provisionalImage]
    cases cli.image with
    | some ci => rfl
    | none =>
      cases env.image with
      | some ei => rfl
      | none =>
        cases base.image with
        | some bi => rfl
        | none => rfl
  simp only [resolve_config_args_create_tmp]
  rw [hprov]
  cases hpi : provisionalImage base env cli with
  | none =>
    dsimp only
    have hmp : matchedProfile base profiles env cli = none := by
      simp [matchedProfile, hpi]
    simp only [hmp, Option.none_bind]
    simp only [mainPassConfig, applyCli, applyBase, defaultConfig]
    refine Config.mk.injEq _ _ _ _ _ _ _ _ _ _ |>.mpr ?_ |>.symm |>.symm
    constructor
    · cases cli.image <;> cases env.image <;> cases base.image <;>
        simp [Option.orElse, Option.bind]
    constructor
    · cases env.sudo_command <;> cases base.sudo_command <;>
        simp [Option.orElse, Option.bind, Option.getD]
    constructor
    · cases cli.install_sudo <;> cases env.install_sudo <;>
        cases base.install_sudo <;> simp [Option.orElse, Option.bind]
    constructor
    · cases cli.no_password <;> cases env.no_password <;>
        cases base.no_password <;> simp [Option.orElse, Option.bind, Option.getD]
    · cases cli.unsafe_setup_passwordless_sudo <;>
        cases env.unsafe_setup_passwordless_sudo <;>
        cases base.unsafe_setup_passwordless_sudo <;>
        simp [Option.orElse, Option.bind, Option.getD]
  | some img =>
    dsimp only
    rw [foldl_profile_eq_find (fun p => create_config base p.2 env) img profiles
      (mainPassConfig base env) hnd]
    have hmp : matchedProfile base profiles env cli =
        (profiles.find? (fun p => p.1 = img)).map (fun p => p.2) := by
      simp [matchedProfile, hpi]
    cases hf : profiles.find? (fun p => p.1 = img) with
    | none =>
      simp only [hmp, hf, Option.map_none', Option.none_bind]
      simp only [mainPassConfig, applyCli, applyBase, defaultConfig]
      refine Config.mk.injEq _ _ _ _ _ _ _ _ _ _ |>.mpr ?_ |>.symm |>.symm
      constructor
      · cases cli.image <;> cases env.image <;> cases base.image <;>
          simp [Option.orElse, Option.bind]
      constructor
      · cases env.sudo_command <;> cases base.sudo_command <;>
          simp [Option.orElse, Option.bind, Option.getD]
      constructor
      · cases cli.install_sudo <;> cases env.install_sudo <;>
          cases base.install_sudo <;> simp [Option.orElse, Option.bind]
      constructor
      · cases cli.no_password <;> cases env.no_password <;>
          cases base.no_password <;> simp [Option.orElse, Option.bind, Option.getD]
      · cases cli.unsafe_setup_passwordless_sudo <;>
          cases env.unsafe_setup_passwordless_sudo <;>
          cases base.unsafe_setup_passwordless_sudo <;>
          simp [Option.orElse, Option.bind, Option.getD]
    | some p =>
      simp only [hmp, hf, Option.map_some', Option.some_bind]
      simp only [create_config, applyCli, applyBase, defaultConfig]
      refine Config.mk.injEq _ _ _ _ _ _ _ _ _ _ |>.mpr ?_ |>.symm |>.symm
      constructor
      · cases cli.image <;> cases env.image <;> cases p.2.image <;>
          cases base.image <;> simp [Option.orElse, Option.bind]
      constructor
      · cases env.sudo_command <;> cases p.2.sudo_command <;>
          cases base.sudo_command <;>
          simp [Option.orElse, Option.bind, Option.getD]
      constructor
      · cases cli.install_sudo <;> cases env.install_sudo <;>
          cases p.2.install_sudo <;> cases base.install_sudo <;>
          simp [Option.orElse, Option.bind]
      constructor
      · cases cli.no_password <;> cases env.no_password <;>
          cases p.2.no_password <;> cases base.no_password <;>
          simp [Option.orElse, Option.bind, Option.getD]
      · cases cli.unsafe_setup_passwordless_sudo <;>
          cases env.unsafe_setup_passwordless_sudo <;>
          cases p.2.unsafe_setup_passwordless_sudo <;>
          cases base.unsafe_setup_passwordless_sudo <;>
          simp [Option.orElse, Option.bind, Option.getD]

/-- Witness for C2 at a concrete input: the image is supplied only on the
CLI, yet the matching per-image profile is activated (its `no_password`
value survives below environment and CLI layers that do not set it), and
every layer's values land according to precedence. -/
theorem C2_witness :
    resolve_config_args_create_tmp
      { image := some "alpine", sudo_command := some "doas",
        no_password := some false }
      [("ubuntu", { install_sudo := some false, no_password := some true })]
      { sudo_command := some "envsudo" }
      { image := some "ubuntu", install_sudo := some true } =
      { image := some "ubuntu", sudo_command := "envsudo",
        install_sudo := some true, no_password := true,
        unsafe_setup_passwordless_sudo := false } := by
  have h := C2_config_precedence
    { image := some "alpine", sudo_command := some "doas",
      no_password := some false }
    [("ubuntu", { install_sudo := some false, no_password := some true })]
    { sudo_command := some "envsudo" }
    { image := some "ubuntu", install_sudo := some true }
    (by decide)
  exact h.trans (by decide)

/-! ### Claim C4: the passwd-scan heuristic -/

theorem uidLE_getLast {l : List (String × Int × Int)}
    (hs : List.Sorted uidLE l) {x : String × Int × Int}
    (hx : l.getLast? = some x) {y : String × Int × Int} (hy : y ∈ l) :
    uidLE y x := by
  induction l with
  | nil => cases hy
  | cons a t ih =>
    rw [List.sorted_cons] at hs
    cases t with
    | nil =>
      have hax : a = x := by simpa using hx
      have hya : y = a := by simpa using hy
      subst hax
      subst hya
      exact le_refl _
    | cons b t2 =>
      rw [List.getLast?_cons_cons] at hx
      rcases List.mem_cons.mp hy with rfl | hy'
      · exact hs.1 x (List.mem_of_mem_getLast? hx)
      · exact ih hs.2 hx hy'

/-- A concrete passwd dump whose users carry the UIDs 999, 1000, 1042 and
2000. -/
def passwdExample : String :=
  "sys:x:999:999::/:/bin/false\nalice:x:1000:1000::/home/alice:/bin/sh\nbob:x:1042:1042::/home/bob:/bin/sh\nhuge:x:2000:2000::/:/bin/sh\n"

/-- The entries parsed from `passwdExample`. -/
def passwdExampleEntries : List (String × Int × Int) :=
  [("sys", 999, 999), ("alice", 1000, 1000), ("bob", 1042, 1042),
   ("huge", 2000, 2000)]

/-- Claim C4: the passwd scan parses each line as colon-separated fields,
keeps only entries with uid in `[1000, 2000)` and selects the entry with
the largest uid of that band, returning its uid and gid; on a dump with
UIDs 999, 1000, 1042 and 2000 it selects 1042. -/
theorem C4_passwd_largest_in_band :
    (∀ (entries : List (String × Int × Int)) (u g : Int),
      selectBest entries = some (u, g) →
        (∃ n, (n, u, g) ∈ entries) ∧ 1000 ≤ u ∧ u < 2000 ∧
        ∀ e ∈ entries, 1000 ≤ e.2.1 → e.2.1 < 2000 → e.2.1 ≤ u) ∧
    parsePasswdAll passwdExample = some passwdExampleEntries ∧
    selectBest passwdExampleEntries = some (1042, 1042) := by
  refine ⟨?_, by decide, by decide⟩
  intro entries u g h
  simp only [selectBest] at h
  cases hlast : (List.insertionSort uidLE
      (entries.filter (fun x => decide (1000 ≤ x.2.1) && decide (x.2.1 < 2000)))).getLast? with
  | none => rw [hlast] at h; simp at h
  | some x =>
    rw [hlast] at h
    simp only [Option.map_some', Option.some.injEq, Prod.mk.injEq] at h
    obtain ⟨hu, hg⟩ := h
    have hxs : x ∈ List.insertionSort uidLE
        (entries.filter (fun x => decide (1000 ≤ x.2.1) && decide (x.2.1 < 2000))) :=
      List.mem_of_mem_getLast? hlast
    have hxf := (List.mem_insertionSort uidLE).mp hxs
    obtain ⟨hxe, hxp⟩ := List.mem_filter.mp hxf
    simp only [Bool.and_eq_true, decide_eq_true_eq] at hxp
    refine ⟨⟨x.1, ?_⟩, hu ▸ hxp.1, hu ▸ hxp.2, ?_⟩
    · have hxeq : (x.1, u, g) = x := by
        rw [← hu, ← hg]
      rw [hxeq]
      exact hxe
    · intro e he h1 h2
      have hef : e ∈ entries.filter
          (fun x => decide (1000 ≤ x.2.1) && decide (x.2.1 < 2000)) :=
        List.mem_filter.mpr ⟨he, by simp [h1, h2]⟩
      have hes := (List.mem_insertionSort uidLE).mpr hef
      have := uidLE_getLast (List.sorted_insertionSort uidLE _) hlast hes
      rw [← hu]
      exact this

/-- Witness for C4: the general band/maximality statement applied to the
parsed example entries. -/
theorem C4_witness :
    (∃ n, (n, (1042 : Int), (1042 : Int)) ∈ passwdExampleEntries) ∧
    (1000 : Int) ≤ 1042 ∧ (1042 : Int) < 2000 ∧
    ∀ e ∈ passwdExampleEntries, 1000 ≤ e.2.1 → e.2.1 < 2000 → e.2.1 ≤ 1042 :=
  C4_passwd_largest_in_band.1 passwdExampleEntries 1042 1042 (by decide)

/-! ### Claim C3: idmap expressions -/

/-- Claim C3: the idmap expression is exactly `0-0-2000;gids=0-0-2000` in
root mode and `{host_uid}-{container_uid}-1#0-0-1;gids={host_gid}-{container_gid}-1#0-0-1`
otherwise; in particular host 1001/1001 mapped to container 1042/1042
yields `1001-1042-1#0-0-1;gids=1001-1042-1#0-0-1`. -/
theorem C3_idmap_expressions :
    (∀ hu hg : Nat, ∀ cu cg : Int,
      idmap_parameters true hu hg cu cg = "0-0-2000;gids=0-0-2000") ∧
    (∀ hu hg : Nat, ∀ cu cg : Int,
      idmap_parameters false hu hg cu cg =
        toString hu ++ "-" ++ toString cu ++ "-1#0-0-1;gids=" ++
        toString hg ++ "-" ++ toString cg ++ "-1#0-0-1") ∧
    idmap_parameters false 1001 1001 1042 1042 =
      "1001-1042-1#0-0-1;gids=1001-1042-1#0-0-1" := by
  refine ⟨fun hu hg cu cg => rfl, fun hu hg cu cg => rfl, by decide⟩

/-! ### Claim C1: what dry-run mode may execute

`image_inspect` (src/main.rs:719-721), the passwd dump
(src/main.rs:806-808) and the container inspect of `enter_container`
(src/main.rs:900-905) run unconditionally, dry-run or not, because their
output feeds the synthesis; dry-run only suppresses the synthesized
run/exec/kill/rm/start/ps commands.  So the claim as stated is refutable,
and the provable version restricts dry-run spawns to those read-only
informational commands. -/

/-- The read-only informational argument vectors that dry-run mode may
still execute: container inspect, image inspect and the passwd-dump run. -/
def informational (argv : List String) : Prop :=
  (∃ s n, argv = [s, "podman", "container", "inspect", n]) ∨
  (∃ s i, argv = [s, "podman", "image", "inspect", i]) ∨
  (∃ s i, argv = [s, "podman", "run", "--rm", "--entrypoint", "cat", i,
    "/etc/passwd"])

/-- Every process spawned in the trace is an informational command. -/
def spawnsOk (t : List Event) : Prop :=
  ∀ argv, Event.spawn argv ∈ t → informational argv

theorem spawnsOk_nil : spawnsOk [] := fun _ h => absurd h (List.not_mem_nil _)

theorem spawnsOk_append {a b : List Event} (ha : spawnsOk a) (hb : spawnsOk b) :
    spawnsOk (a ++ b) := by
  intro argv h
  rcases List.mem_append.mp h with h1 | h2
  exacts [ha argv h1, hb argv h2]

theorem spawnsOk_mbind {α β : Type} {x : M α} {f : α → M β}
    (hx : spawnsOk x.1) (hf : ∀ a, spawnsOk (f a).1) :
    spawnsOk (mbind x f).1 := by
  obtain ⟨e, exc⟩ := x
  cases exc with
  | error er => exact hx
  | ok a => exact spawnsOk_append hx (hf a)

theorem spawnsOk_evOk {α : Type} (a : α) : spawnsOk (evOk a).1 := spawnsOk_nil

theorem spawnsOk_printM (s : String) : spawnsOk (printM s).1 := by
  intro argv h
  simp [printM] at h

theorem spawnsOk_eprintM (s : String) : spawnsOk (eprintM s).1 := by
  intro argv h
  simp [eprintM] at h

theorem spawnsOk_exitM {α : Type} (c : Int) : spawnsOk (exitM (α := α) c).1 :=
  spawnsOk_nil

theorem spawnsOk_panicM {α : Type} (m : String) : spawnsOk (panicM (α := α) m).1 :=
  spawnsOk_nil

theorem spawnsOk_print_command (args : List String) :
    spawnsOk (print_command args).1 := by
  unfold print_command
  cases shlexTryJoin args with
  | some s => exact spawnsOk_printM s
  | none => exact spawnsOk_nil

theorem informational_inspect (cfg : Config) (n : String) :
    informational (generate_container_inspect_command cfg n) :=
  Or.inl ⟨cfg.sudo_command, n, rfl⟩

theorem informational_image (cfg : Config) (i : String) :
    informational (generate_image_inspect_command cfg i) :=
  Or.inr (Or.inl ⟨cfg.sudo_command, i, rfl⟩)

theorem informational_cat (cfg : Config) (i : String) :
    informational (generate_cat_etc_password_command cfg i) :=
  Or.inr (Or.inr ⟨cfg.sudo_command, i, rfl⟩)

theorem spawnsOk_spawnM {w : World} {argv : List String}
    (h : informational argv) : spawnsOk (spawnM w argv).1 := by
  intro a ha
  simp [spawnM] at ha
  exact ha ▸ h

theorem spawnsOk_image_inspect (w : World) (cfg : Config) (img : String)
    (dry : Bool) : spawnsOk (image_inspect w cfg img dry).1 := by
  unfold image_inspect
  apply spawnsOk_mbind
  · split
    · exact spawnsOk_print_command _
    · exact spawnsOk_evOk _
  · intro _
    apply spawnsOk_mbind (spawnsOk_spawnM (informational_image cfg img))
    intro r
    split <;> exact spawnsOk_evOk _

theorem spawnsOk_determine (w : World) (cfg : Config) (img : String) :
    spawnsOk (determine_container_uid_gid w cfg img true).1 := by
  unfold determine_container_uid_gid
  apply spawnsOk_mbind (spawnsOk_image_inspect w cfg img true)
  intro first
  apply spawnsOk_mbind
  · cases first with
    | some x => exact spawnsOk_evOk x
    | none =>
      simp only [eq_self_iff_true, if_true]
      exact spawnsOk_mbind (spawnsOk_printM _) fun _ =>
        spawnsOk_mbind (spawnsOk_print_command _) fun _ => spawnsOk_exitM 1
  · intro result
    split
    · exact spawnsOk_panicM _
    · split
      · split
        · exact spawnsOk_panicM _
        · exact spawnsOk_evOk _
      · apply spawnsOk_mbind
        · split
          · exact spawnsOk_print_command _
          · exact spawnsOk_evOk _
        · intro _
          apply spawnsOk_mbind (spawnsOk_spawnM (informational_cat cfg img))
          intro p
          split
          · exact spawnsOk_evOk _
          · split
            · exact spawnsOk_panicM _
            · exact spawnsOk_evOk _

theorem spawnsOk_resolveImageM (cfg : Config) (image : Option String) :
    spawnsOk (resolveImageM cfg image).1 := by
  unfold resolveImageM
  split
  · exact spawnsOk_evOk _
  · exact spawnsOk_mbind (spawnsOk_eprintM _) fun _ => spawnsOk_exitM 1

theorem spawnsOk_identityStep (w : World) (cfg : Config) (img : String)
    (root : Bool) : spawnsOk (identityStep w cfg img root true).1 := by
  unfold identityStep
  split
  · exact spawnsOk_evOk _
  · apply spawnsOk_mbind (spawnsOk_determine w cfg img)
    intro t
    split <;> exact spawnsOk_evOk _

theorem spawnsOk_resolveDirM (w : World) (directory : Option String) :
    spawnsOk (resolveDirM w directory).1 := by
  unfold resolveDirM
  split
  · split
    · exact spawnsOk_evOk _
    · exact spawnsOk_mbind (spawnsOk_eprintM _) fun _ => spawnsOk_exitM 1
  · split
    · exact spawnsOk_evOk _
    · exact spawnsOk_panicM _

theorem spawnsOk_buildAdditionalMounts (idmap : String) :
    ∀ l, spawnsOk (buildAdditionalMounts idmap l).1
  | [] => spawnsOk_nil
  | spec :: rest => by
    unfold buildAdditionalMounts
    split
    · exact spawnsOk_mbind (spawnsOk_buildAdditionalMounts idmap rest)
        fun _ => spawnsOk_evOk _
    · exact spawnsOk_mbind (spawnsOk_eprintM _) fun _ => spawnsOk_exitM 1

theorem spawnsOk_generate (w : World) (cfg : Config) (image : Option String)
    (name : String) (root temp : Bool) (pt dir : Option String) (nd : Bool)
    (mounts : List String) :
    spawnsOk (generate_create_container_command w cfg image name root temp pt
      dir nd mounts true).1 := by
  unfold generate_create_container_command genPrelude
  apply spawnsOk_mbind
  · apply spawnsOk_mbind (spawnsOk_resolveImageM cfg image)
    intro img
    apply spawnsOk_mbind (spawnsOk_identityStep w cfg img root)
    intro ids
    apply spawnsOk_mbind (spawnsOk_resolveDirM w dir)
    intro cd
    apply spawnsOk_mbind (spawnsOk_buildAdditionalMounts _ mounts)
    intro addl
    exact spawnsOk_evOk _
  · intro r
    obtain ⟨img, cu, u, g, cd, addl⟩ := r
    exact spawnsOk_evOk _

theorem spawnsOk_enter_container (w : World) (cfg : Config) (name : String)
    (u sh : Option String) (aargs : List String) :
    spawnsOk (enter_container w cfg name u sh true aargs).1 := by
  unfold enter_container
  apply spawnsOk_mbind (spawnsOk_spawnM (informational_inspect cfg name))
  intro res
  apply spawnsOk_mbind
  · split
    · exact spawnsOk_panicM _
    · split
      · split
        · exact spawnsOk_mbind (spawnsOk_eprintM _) fun _ => spawnsOk_exitM 1
        · exact spawnsOk_evOk _
      · exact spawnsOk_evOk _
  · intro stdout
    split
    · exact spawnsOk_panicM _
    · split
      · exact spawnsOk_panicM _
      · split
        · exact spawnsOk_panicM _
        · apply spawnsOk_mbind
          · split
            · exact spawnsOk_panicM _
            · exact spawnsOk_evOk _
          · intro _
            split
            · exact spawnsOk_panicM _
            · simp only [eq_self_iff_true, if_true]
              exact spawnsOk_mbind (spawnsOk_print_command _) fun _ =>
                spawnsOk_mbind (spawnsOk_print_command _) fun _ =>
                spawnsOk_print_command _

theorem spawnsOk_handle_create (w : World) (cfg : Config) (name : String)
    (common : SharedArgs) (v : Bool) :
    spawnsOk (handle_create w cfg name common ⟨true, v⟩).1 := by
  unfold handle_create
  apply spawnsOk_mbind
  · simp only [eq_self_iff_true, if_true]
    exact spawnsOk_print_command _
  · intro _
    apply spawnsOk_mbind (spawnsOk_generate w cfg common.image name common.root
      false common.pass_through common.directory common.no_dir common.volume)
    intro r
    obtain ⟨cmd0, cu, uid, gid, img⟩ := r
    simp only [eq_self_iff_true, if_true]
    exact spawnsOk_print_command _

theorem spawnsOk_handle_temp (w : World) (cfg : Config) (common : SharedArgs)
    (v : Bool) : spawnsOk (handle_temp w cfg common ⟨true, v⟩).1 := by
  unfold handle_temp
  apply spawnsOk_mbind (spawnsOk_generate w cfg common.image "" common.root
    true common.pass_through common.directory common.no_dir common.volume)
  intro r
  obtain ⟨cmd0, cu, uid, gid, img⟩ := r
  simp only [eq_self_iff_true, if_true]
  exact spawnsOk_print_command _

theorem spawnsOk_handle_remove (w : World) (cfg : Config) (v : Bool) :
    ∀ names, spawnsOk (handle_remove w cfg ⟨true, v⟩ names).1
  | [] => spawnsOk_nil
  | n :: rest => by
    unfold handle_remove
    apply spawnsOk_mbind
    · simp only [eq_self_iff_true, if_true]
      exact spawnsOk_mbind (spawnsOk_print_command _) fun _ =>
        spawnsOk_print_command _
    · intro _
      exact spawnsOk_handle_remove w cfg v rest

theorem spawnsOk_handle_restart (w : World) (cfg : Config) (v : Bool) :
    ∀ names, spawnsOk (handle_restart w cfg ⟨true, v⟩ names).1
  | [] => spawnsOk_nil
  | n :: rest => by
    unfold handle_restart
    apply spawnsOk_mbind
    · simp only [eq_self_iff_true, if_true]
      exact spawnsOk_mbind (spawnsOk_print_command _) fun _ =>
        spawnsOk_print_command _
    · intro _
      exact spawnsOk_handle_restart w cfg v rest

theorem spawnsOk_handle_list (w : World) (cfg : Config) (v : Bool) :
    spawnsOk (handle_list w cfg ⟨true, v⟩).1 := by
  unfold handle_list
  simp only [eq_self_iff_true, if_true]
  exact spawnsOk_print_command _

/-- Claim C1 (amended): in dry-run mode the tool never executes the
synthesized run/exec/kill/rm/start/ps commands — it renders them as
shell-quoted lines — and the only processes it may still spawn are the
read-only informational ones: container inspect, image inspect and the
passwd-dump run. -/
theorem C1_dry_run_spawns_only_informational (w : World) (base : BaseConfig)
    (profiles : List (String × BaseConfig)) (env : BaseConfig)
    (cmd : Command) (h : cmdDry cmd = true) :
    spawnsOk (runCommand w base profiles env cmd).1 := by
  cases cmd with
  | create name common all =>
    obtain ⟨dr, v⟩ := all
    simp only [cmdDry] at h
    subst h
    exact spawnsOk_mbind (spawnsOk_eprintM _) fun _ =>
      spawnsOk_handle_create w _ name common v
  | enter name usr sh all =>
    obtain ⟨dr, v⟩ := all
    simp only [cmdDry] at h
    subst h
    exact spawnsOk_enter_container w _ name usr sh []
  | remove names all =>
    obtain ⟨dr, v⟩ := all
    simp only [cmdDry] at h
    subst h
    exact spawnsOk_handle_remove w _ v names
  | temp common all =>
    obtain ⟨dr, v⟩ := all
    simp only [cmdDry] at h
    subst h
    exact spawnsOk_handle_temp w _ common v
  | list all =>
    obtain ⟨dr, v⟩ := all
    simp only [cmdDry] at h
    subst h
    exact spawnsOk_handle_list w _ v
  | restart names all =>
    obtain ⟨dr, v⟩ := all
    simp only [cmdDry] at h
    subst h
    exact spawnsOk_handle_restart w _ v names
  | configShow => simp [cmdDry] at h
  | configPath => simp [cmdDry] at h
  | noCommand => simp [cmdDry] at h

/-- Counterexample to C1 as stated: a dry-run enter invocation spawns the
container-inspect process (src/main.rs:900-905 runs it unconditionally). -/
theorem C1_counterexample :
    Event.spawn ["sudo", "podman", "container", "inspect", "box"] ∈
      (runCommand w8 {} [] {}
        (Command.enter "box" none (some "sh") ⟨true, false⟩)).1 := by
  decide

/-- Witness for the amended C1 at a concrete dry-run invocation. -/
theorem C1_witness :
    cmdDry (Command.list ⟨true, false⟩) = true ∧
    spawnsOk (runCommand w0 {} [] {} (Command.list ⟨true, false⟩)).1 :=
  ⟨rfl, C1_dry_run_spawns_only_informational w0 {} [] {}
    (Command.list ⟨true, false⟩) rfl⟩

end Seabox
